import Mathlib

/-!
Shallow embedding of the polygon radiation sampling and attribute
normalization engine of `src/lib/swiss-api.ts` (simulateur-swiss).

Conventions of the embedding:
* JavaScript numbers are modelled as exact rationals (`ℚ`).  All numeric
  literals appearing in the source are decimal and hence exactly
  representable; the few places where binary floating point could deviate
  (a division, `Math.sqrt`) are noted at the definition concerned.
* `null`-able numeric fields are `Option ℚ`.  JavaScript truthiness for a
  number is `≠ 0`; `truthyNum` reduces a nullable number to its truthy
  value (`x ? Number(x) : null` and `x && x` patterns).
* `Math.round x` is `⌊x + 1/2⌋` (round half towards +∞), `jsRound` below.
* Exceptions that the source catches locally are modelled by `Option`
  results; network interactions are modelled by passing the response (or a
  per-point oracle) as an explicit argument, together with a counter of
  the network calls the code path would issue.
-/

/-- `Math.round`: round half towards positive infinity. -/
def jsRound (q : ℚ) : ℤ := ⌊q + 1/2⌋

/-- JavaScript truthiness filter for a nullable number: `v ? v : null`.
`null` stays `null` and `0` becomes `null`; any other number is kept. -/
def truthyNum (x : Option ℚ) : Option ℚ :=
  match x with
  | none => none
  | some v => if v = 0 then none else some v

/-- JavaScript `x || d` for a nullable number `x` and default `d`:
the value of `x` if it is truthy (non-null and nonzero), else `d`. -/
def jsOrQ (x : Option ℚ) (d : ℚ) : ℚ :=
  match x with
  | none => d
  | some v => if v = 0 then d else v

/-- Falsiness of the running `annualKwhPerM2` variable (a number or
`null`): `!x` is true when `x` is `null` or `0`. -/
def jsFalsy (x : Option ℚ) : Bool :=
  match x with
  | none => true
  | some v => v = 0

/-- Raw attribute record of one feature as returned by the identify
service (`attributes` in the responses consumed by `getSolarData` /
`getSolarDataForPolygon`).  Only the fields the code reads are kept;
identifier fields are modelled as optional strings. -/
structure RawFeatureAttributes where
  building_id : Option String := none
  objectid : Option String := none
  id : Option String := none
  label : Option String := none
  flaeche : Option ℚ := none
  stromertrag : Option ℚ := none
  gstrahlung : Option ℚ := none
  mstrahlung : Option ℚ := none
  leistung : Option ℚ := none
  eignung : Option String := none
deriving DecidableEq, Repr

/-- `Number(attrs.flaeche) || 0` (line 245 of `swiss-api.ts`). -/
def flaecheOf (a : RawFeatureAttributes) : ℚ := (a.flaeche).getD 0

/-- Heuristic constant `MODULE_EFFICIENCY` (0.17). -/
def MODULE_EFFICIENCY : ℚ := 17/100

/-- Heuristic constant `SYSTEM_FACTOR` (0.85). -/
def SYSTEM_FACTOR : ℚ := 85/100

/-- `COMBINED_FACTOR = MODULE_EFFICIENCY * SYSTEM_FACTOR` (= 0.1445). -/
def COMBINED_FACTOR : ℚ := MODULE_EFFICIENCY * SYSTEM_FACTOR

/-- Plausibility window test `c > 200 && c < 20000` used by tiers 2/3. -/
def inWindow (c : ℚ) : Bool := 200 < c ∧ c < 20000

/-- Tier 1 of the normalizer (lines 261–265): if `stromertrag` is truthy
and `flaeche > 0`, derive radiation as `stromertrag / (flaeche *
COMBINED_FACTOR)`; otherwise the running value stays `null`. -/
def tier1 (a : RawFeatureAttributes) : Option ℚ :=
  match truthyNum a.stromertrag with
  | some s => if 0 < flaecheOf a then some (s / (flaecheOf a * COMBINED_FACTOR)) else none
  | none => none

/-- Tier 2 of the normalizer (lines 267–274): if the running value is
falsy and `mstrahlung` is truthy, accept `mstrahlung * 12` when it is in
the plausibility window; otherwise keep the running value. -/
def tier2After (cur : Option ℚ) (a : RawFeatureAttributes) : Option ℚ :=
  if jsFalsy cur then
    match truthyNum a.mstrahlung with
    | some m => if inWindow (m * 12) then some (m * 12) else cur
    | none => cur
  else cur

/-- First element of a candidate list inside the plausibility window
(the `for … break` loop of tier 3). -/
def firstInWindow : List ℚ → Option ℚ
  | [] => none
  | c :: cs => if inWindow c then some c else firstInWindow cs

/-- Tier 3 of the normalizer (lines 276–287): if the running value is
falsy and `gstrahlung` is truthy, try the candidates `[g, g/1000, g/3.6]`
in order and accept the first one inside the window. -/
def tier3After (cur : Option ℚ) (a : RawFeatureAttributes) : Option ℚ :=
  if jsFalsy cur then
    match truthyNum a.gstrahlung with
    | some g =>
      match firstInWindow [g, g / 1000, g / 3.6] with
      | some c => some c
      | none => cur
    | none => cur
  else cur

/-- Tier 4 of the normalizer (lines 289–294): if the running value is
still falsy, assign `((gstrahlung && gstrahlung) || (mstrahlung &&
mstrahlung * 12) || 0) || 0` with no plausibility check. -/
def tier4After (cur : Option ℚ) (a : RawFeatureAttributes) : Option ℚ :=
  if jsFalsy cur then
    some (jsOrQ (truthyNum a.gstrahlung) (jsOrQ ((truthyNum a.mstrahlung).map (· * 12)) 0))
  else cur

/-- The full `annualKwhPerM2` fallback chain of `getSolarData`
(lines 259–294), as sequential updates of the running nullable value. -/
def deriveAnnual (a : RawFeatureAttributes) : Option ℚ :=
  tier4After (tier3After (tier2After (tier1 a) a) a) a

/-- Raw payload attached to a returned record (the `raw` field): either
one attribute record (point path), a list of identify results (polygon
path), or the empty object (sampling-only path). -/
inductive RawPayload where
  | attrs (a : RawFeatureAttributes)
  | results (rs : List RawFeatureAttributes)
  | empty
deriving DecidableEq, Repr

/-- `SolarRoofData` of `swiss-api.ts`: the normalized record consumed by
the rest of the application. -/
structure SolarRoofData where
  radiation : ℤ
  area : ℚ
  power : ℚ
  suitability : String
  stretrag : Option ℚ
  raw : RawPayload
deriving DecidableEq, Repr

/-- `Number.EPSILON` (2⁻⁵²), added before the 2-decimal rounding of the
reported power. -/
def NUMBER_EPSILON : ℚ := 1 / 2 ^ 52

/-- Lines 249–252 and 299: normalize reported power to kW (values above
1000 are taken to be Watts) and round to 2 decimals. -/
def powerOf (a : RawFeatureAttributes) : ℚ :=
  let leistung := (truthyNum a.leistung).getD 0
  let powerKw := if 1000 < leistung then leistung / 1000 else leistung
  ((jsRound ((powerKw + NUMBER_EPSILON) * 100) : ℚ) / 100)

/-- The record built from the chosen attributes at lines 296–303 of
`getSolarData` (the pure normalization part of the point lookup). -/
def normalizeAttrs (a : RawFeatureAttributes) : SolarRoofData :=
  { radiation := jsRound (jsOrQ (deriveAnnual a) 0)
    area := flaecheOf a
    power := powerOf a
    suitability := (a.eignung).getD "unknown"
    stretrag := truthyNum a.stromertrag
    raw := RawPayload.attrs a }

/-! Concrete attribute records from `src/scripts/check_normalization.js`
(`sampleAttrs`, `edge1`, `edge2`) and a negative-radiation record. -/

/-- `sampleAttrs` of `check_normalization.js`: the tier-1 worked example. -/
def sampleAttrs : RawFeatureAttributes :=
  { flaeche := some (35.2531614459 : ℚ), stromertrag := some 4862,
    mstrahlung := some 862, gstrahlung := some 30388 }

/-- `edge1` of `check_normalization.js`: the tier-3 worked example. -/
def edge1 : RawFeatureAttributes :=
  { flaeche := some 0, gstrahlung := some 3000000 }

/-- An attribute record whose general-radiation figure is negative. -/
def negGAttrs : RawFeatureAttributes := { gstrahlung := some (-500) }


/-- A candidate accepted by `firstInWindow` lies inside the window. -/
theorem firstInWindow_inWindow :
    ∀ (l : List ℚ) (c : ℚ), firstInWindow l = some c → inWindow c = true := by
  intro l
  induction l with
  | nil => intro c h; simp [firstInWindow] at h
  | cons x xs ih =>
    intro c h
    simp only [firstInWindow] at h
    split at h
    · obtain rfl : x = c := by injection h
      assumption
    · exact ih c h

/-- Inversion for `truthyNum`: a truthy value comes from the field and is
nonzero. -/
theorem truthyNum_some {x : Option ℚ} {v : ℚ} (h : truthyNum x = some v) :
    x = some v ∧ v ≠ 0 := by
  cases x with
  | none => simp [truthyNum] at h
  | some w =>
    by_cases hw : w = 0
    · simp [truthyNum, hw] at h
    · simp [truthyNum, hw] at h
      exact ⟨by simp [h], by simpa [← h] using hw⟩

/-- Tier 1 only produces non-negative values when the reported production
is non-negative. -/
theorem tier1_nonneg (a : RawFeatureAttributes)
    (hs : ∀ v, a.stromertrag = some v → 0 ≤ v) :
    ∀ v, tier1 a = some v → 0 ≤ v := by
  intro v h
  unfold tier1 at h
  rcases hts : truthyNum a.stromertrag with - | s
  · simp only [hts] at h
    exact Option.noConfusion h
  · simp only [hts] at h
    obtain ⟨hmem, hne⟩ := truthyNum_some hts
    have hs0 : 0 ≤ s := hs s hmem
    split at h
    · obtain rfl : s / (flaecheOf a * COMBINED_FACTOR) = v := by injection h
      have hcf : (0:ℚ) ≤ COMBINED_FACTOR := by
        norm_num [COMBINED_FACTOR, MODULE_EFFICIENCY, SYSTEM_FACTOR]
      have hfl : (0:ℚ) ≤ flaecheOf a := le_of_lt (by assumption)
      exact div_nonneg hs0 (mul_nonneg hfl hcf)
    · exact absurd h (by simp)

/-- Tier 2 preserves non-negativity of the running value. -/
theorem tier2After_nonneg (cur : Option ℚ) (a : RawFeatureAttributes)
    (hc : ∀ v, cur = some v → 0 ≤ v) :
    ∀ v, tier2After cur a = some v → 0 ≤ v := by
  intro v h
  unfold tier2After at h
  split at h
  · rcases htm : truthyNum a.mstrahlung with - | m
    · simp only [htm] at h; exact hc v h
    · simp only [htm] at h
      split at h
      · obtain rfl : m * 12 = v := by injection h
        rename_i hw
        have hw' : (200:ℚ) < m * 12 ∧ m * 12 < 20000 := by simpa [inWindow] using hw
        linarith [hw'.1]
      · exact hc v h
  · exact hc v h

/-- Tier 3 preserves non-negativity of the running value. -/
theorem tier3After_nonneg (cur : Option ℚ) (a : RawFeatureAttributes)
    (hc : ∀ v, cur = some v → 0 ≤ v) :
    ∀ v, tier3After cur a = some v → 0 ≤ v := by
  intro v h
  unfold tier3After at h
  split at h
  · rcases htg : truthyNum a.gstrahlung with - | g
    · simp only [htg] at h; exact hc v h
    · simp only [htg] at h
      rcases hfw : firstInWindow [g, g / 1000, g / 3.6] with - | c
      · simp only [hfw] at h; exact hc v h
      · simp only [hfw] at h
        obtain rfl : c = v := by injection h
        have hw := firstInWindow_inWindow _ _ hfw
        have hw' : (200:ℚ) < c ∧ c < 20000 := by simpa [inWindow] using hw
        linarith [hw'.1]
  · exact hc v h

/-- Tier 4 yields a non-negative value when the raw radiation figures are
non-negative. -/
theorem tier4After_nonneg (cur : Option ℚ) (a : RawFeatureAttributes)
    (hc : ∀ v, cur = some v → 0 ≤ v)
    (hg : ∀ v, a.gstrahlung = some v → 0 ≤ v)
    (hm : ∀ v, a.mstrahlung = some v → 0 ≤ v) :
    ∀ v, tier4After cur a = some v → 0 ≤ v := by
  intro v h
  unfold tier4After at h
  split at h
  · have hv : jsOrQ (truthyNum a.gstrahlung)
        (jsOrQ ((truthyNum a.mstrahlung).map (· * 12)) 0) = v := by injection h
    have hinner : 0 ≤ jsOrQ ((truthyNum a.mstrahlung).map (· * 12)) 0 := by
      rcases htm : truthyNum a.mstrahlung with - | m
      · simp [jsOrQ]
      · obtain ⟨hmem, -⟩ := truthyNum_some htm
        have hm0 := hm m hmem
        show 0 ≤ jsOrQ (some (m * 12)) 0
        simp only [jsOrQ]
        split
        · norm_num
        · linarith
    rcases htg : truthyNum a.gstrahlung with - | g
    · simp only [htg, jsOrQ] at hv
      simpa [← hv] using hinner
    · obtain ⟨hgmem, -⟩ := truthyNum_some htg
      have hg0 := hg g hgmem
      simp only [htg, jsOrQ] at hv
      by_cases hgz : g = 0
      · rw [if_pos hgz] at hv; simpa [← hv] using hinner
      · rw [if_neg hgz] at hv; simpa [← hv] using hg0
  · exact hc v h

/-- The whole fallback chain is non-negative on non-negative attributes. -/
theorem deriveAnnual_nonneg (a : RawFeatureAttributes)
    (hs : ∀ v, a.stromertrag = some v → 0 ≤ v)
    (hg : ∀ v, a.gstrahlung = some v → 0 ≤ v)
    (hm : ∀ v, a.mstrahlung = some v → 0 ≤ v) :
    ∀ v, deriveAnnual a = some v → 0 ≤ v := by
  unfold deriveAnnual
  exact tier4After_nonneg _ a
    (tier3After_nonneg _ a (tier2After_nonneg _ a (tier1_nonneg a hs))) hg hm

/-- Tiers 2–4 never overwrite a truthy (non-null, nonzero) running value. -/
theorem tier2After_keep (cur : Option ℚ) (a : RawFeatureAttributes)
    (h : jsFalsy cur = false) : tier2After cur a = cur := by
  unfold tier2After
  simp [h]

/-- Tier 3 never overwrites a truthy running value. -/
theorem tier3After_keep (cur : Option ℚ) (a : RawFeatureAttributes)
    (h : jsFalsy cur = false) : tier3After cur a = cur := by
  unfold tier3After
  simp [h]

/-- Tier 4 never overwrites a truthy running value. -/
theorem tier4After_keep (cur : Option ℚ) (a : RawFeatureAttributes)
    (h : jsFalsy cur = false) : tier4After cur a = cur := by
  unfold tier4After
  simp [h]

/-- `jsOrQ x 0` is non-negative when every value `x` can hold is. -/
theorem jsOrQ_nonneg (x : Option ℚ) (h : ∀ v, x = some v → 0 ≤ v) :
    0 ≤ jsOrQ x 0 := by
  rcases x with - | v
  · simp [jsOrQ]
  · simp only [jsOrQ]
    split
    · norm_num
    · exact h v rfl

/-- C4 counterexample: on an attribute record whose general-radiation
figure is -500 (all tiers 1–3 reject it, tier 4 passes it through
verbatim), the normalizer returns the negative value -500, refuting the
claim that the output is always non-negative for every input attribute
set. -/
theorem radiation_negative_on_negGAttrs :
    (normalizeAttrs negGAttrs).radiation = -500 ∧
      ¬ 0 ≤ (normalizeAttrs negGAttrs).radiation := by
  have h : (normalizeAttrs negGAttrs).radiation = -500 := by
    norm_num [normalizeAttrs, deriveAnnual, tier4After, tier3After, tier2After, tier1,
      truthyNum, jsOrQ, jsFalsy, firstInWindow, inWindow, flaecheOf, COMBINED_FACTOR,
      MODULE_EFFICIENCY, SYSTEM_FACTOR, jsRound, negGAttrs]
  exact ⟨h, by rw [h]; norm_num⟩

/-- C4 (amended): for every input attribute set whose reported production,
general radiation and monthly radiation figures are non-negative, the
normalized `radiation` is non-negative, and it is by construction the
rounding (to the nearest integer, `Math.round`) of the derived annual
value. -/
theorem radiation_nonneg_of_nonneg_attrs (a : RawFeatureAttributes)
    (hs : ∀ v, a.stromertrag = some v → 0 ≤ v)
    (hg : ∀ v, a.gstrahlung = some v → 0 ≤ v)
    (hm : ∀ v, a.mstrahlung = some v → 0 ≤ v) :
    0 ≤ (normalizeAttrs a).radiation ∧
      (normalizeAttrs a).radiation = jsRound (jsOrQ (deriveAnnual a) 0) := by
  refine ⟨?_, rfl⟩
  have hx : 0 ≤ jsOrQ (deriveAnnual a) 0 :=
    jsOrQ_nonneg _ (deriveAnnual_nonneg a hs hg hm)
  show 0 ≤ jsRound (jsOrQ (deriveAnnual a) 0)
  unfold jsRound
  refine Int.le_floor.mpr ?_
  push_cast
  linarith

/-- C4 witness: the amended theorem applied to the concrete non-negative
record `edge1`. -/
theorem radiation_nonneg_witness :
    0 ≤ (normalizeAttrs edge1).radiation ∧
      (normalizeAttrs edge1).radiation = jsRound (jsOrQ (deriveAnnual edge1) 0) :=
  radiation_nonneg_of_nonneg_attrs edge1
    (by intro v hv; simp [edge1] at hv)
    (by intro v hv; simp [edge1] at hv; norm_num [← hv])
    (by intro v hv; simp [edge1] at hv)

/-- C5 counterexample: on the spec's own worked example
(area 35.2531614459, production 4862, monthly 862, general 30388) the
code returns 954, not 955: 4862 ÷ (35.2531614459 × 0.1445) ≈ 954.44,
which rounds to 954. -/
theorem tier1_sampleAttrs_ne_955 :
    (normalizeAttrs sampleAttrs).radiation = 954 ∧
      (normalizeAttrs sampleAttrs).radiation ≠ 955 := by
  have h : (normalizeAttrs sampleAttrs).radiation = 954 := by
    norm_num [normalizeAttrs, deriveAnnual, tier4After, tier3After, tier2After, tier1,
      truthyNum, jsOrQ, jsFalsy, firstInWindow, inWindow, flaecheOf, COMBINED_FACTOR,
      MODULE_EFFICIENCY, SYSTEM_FACTOR, jsRound, sampleAttrs]
  exact ⟨h, by rw [h]; norm_num⟩

/-- C5 (amended): whenever a truthy reported production `s` and a
positive reported area exist, the normalized radiation is
`s ÷ (area × COMBINED_FACTOR)` rounded to the nearest integer and the
later tiers are not consulted; on the worked attribute set
{area 35.2531614459, production 4862, monthly 862, general 30388} this
yields 954 (≈ 954.44 before rounding). -/
theorem tier1_production_rule (a : RawFeatureAttributes) (s : ℚ)
    (hs : truthyNum a.stromertrag = some s) (hf : 0 < flaecheOf a) :
    (normalizeAttrs a).radiation = jsRound (s / (flaecheOf a * COMBINED_FACTOR)) ∧
      (normalizeAttrs sampleAttrs).radiation = 954 := by
  constructor
  · obtain ⟨-, hne⟩ := truthyNum_some hs
    have ht1 : tier1 a = some (s / (flaecheOf a * COMBINED_FACTOR)) := by
      unfold tier1
      simp [hs, hf]
    have hqne : s / (flaecheOf a * COMBINED_FACTOR) ≠ 0 := by
      have hd : flaecheOf a * COMBINED_FACTOR ≠ 0 := by
        have : (0:ℚ) < COMBINED_FACTOR := by
          norm_num [COMBINED_FACTOR, MODULE_EFFICIENCY, SYSTEM_FACTOR]
        positivity
      exact div_ne_zero hne hd
    have hkeep : jsFalsy (some (s / (flaecheOf a * COMBINED_FACTOR))) = false := by
      simp [jsFalsy, hqne]
    show jsRound (jsOrQ (deriveAnnual a) 0) = _
    unfold deriveAnnual
    rw [ht1, tier2After_keep _ _ hkeep, tier3After_keep _ _ hkeep,
      tier4After_keep _ _ hkeep]
    simp [jsOrQ, hqne]
  · norm_num [normalizeAttrs, deriveAnnual, tier4After, tier3After, tier2After, tier1,
      truthyNum, jsOrQ, jsFalsy, firstInWindow, inWindow, flaecheOf, COMBINED_FACTOR,
      MODULE_EFFICIENCY, SYSTEM_FACTOR, jsRound, sampleAttrs]

/-- C5 witness: the amended tier-1 rule instantiated at the worked
attribute set itself. -/
theorem tier1_production_rule_witness :
    (normalizeAttrs sampleAttrs).radiation =
        jsRound (4862 / (flaecheOf sampleAttrs * COMBINED_FACTOR)) ∧
      (normalizeAttrs sampleAttrs).radiation = 954 :=
  tier1_production_rule sampleAttrs 4862
    (by norm_num [truthyNum, sampleAttrs])
    (by norm_num [flaecheOf, sampleAttrs])

/-- C6: if tiers 1 and 2 produced no value, the general radiation figure
`g` is truthy, and the ordered candidate list `[g, g/1000, g/3.6]` has a
first element `c` inside the window (200, 20000), then that first
element is taken and the normalized radiation is `round c`; in
particular the record {general 3000000, area 0, production null,
monthly null} yields 3000. -/
theorem tier3_first_window_rule (a : RawFeatureAttributes) (g c : ℚ)
    (h12 : tier2After (tier1 a) a = none)
    (hg : truthyNum a.gstrahlung = some g)
    (hfw : firstInWindow [g, g / 1000, g / 3.6] = some c) :
    deriveAnnual a = some c ∧
      (normalizeAttrs a).radiation = jsRound c ∧
      (normalizeAttrs edge1).radiation = 3000 := by
  have hw : (200:ℚ) < c ∧ c < 20000 := by
    simpa [inWindow] using firstInWindow_inWindow _ _ hfw
  have hcne : c ≠ 0 := by linarith [hw.1]
  have ht3 : tier3After (tier2After (tier1 a) a) a = some c := by
    unfold tier3After
    rw [h12]
    simp [jsFalsy, hg, hfw]
  have hda : deriveAnnual a = some c := by
    unfold deriveAnnual
    rw [ht3, tier4After_keep _ _ (by simp [jsFalsy, hcne])]
  refine ⟨hda, ?_, ?_⟩
  · show jsRound (jsOrQ (deriveAnnual a) 0) = _
    rw [hda]
    simp [jsOrQ, hcne]
  · norm_num [normalizeAttrs, deriveAnnual, tier4After, tier3After, tier2After, tier1,
      truthyNum, jsOrQ, jsFalsy, firstInWindow, inWindow, flaecheOf, COMBINED_FACTOR,
      MODULE_EFFICIENCY, SYSTEM_FACTOR, jsRound, edge1]

/-- C6 witness: the tier-3 rule instantiated at the worked record
`edge1`, whose candidate list is [3000000, 3000, 833333.3…] with 3000
the first (and only) candidate inside the window. -/
theorem tier3_first_window_rule_witness :
    deriveAnnual edge1 = some 3000 ∧
      (normalizeAttrs edge1).radiation = jsRound 3000 ∧
      (normalizeAttrs edge1).radiation = 3000 :=
  tier3_first_window_rule edge1 3000000 3000
    (by norm_num [tier2After, tier1, truthyNum, jsFalsy, edge1])
    (by norm_num [truthyNum, edge1])
    (by norm_num [firstInWindow, inWindow])

/-! Point identify pipeline of `getSolarData` (lines 118–304): response
shape, deduplication, centroid distances and the two-tier selection. -/

/-- Esri identify geometry: a point `{x, y}`, a polygon given by rings,
or a multipoint. -/
inductive Geometry where
  | point (x y : ℚ)
  | rings (rs : List (List (ℚ × ℚ)))
  | points (ps : List (ℚ × ℚ))
deriving DecidableEq, Repr

/-- One entry of `data.results`: attributes plus optional geometry. -/
structure IdentifyResult where
  attributes : RawFeatureAttributes
  geometry : Option Geometry
deriving DecidableEq, Repr

/-- The identify HTTP exchange as consumed by the code: the success flag
(`response.ok`) and the parsed `data.results` list (a missing `results`
field and an empty list take the same branch and are both modelled by
`[]`). -/
structure HttpResponse where
  ok : Bool
  results : List IdentifyResult
deriving DecidableEq, Repr

/-- JavaScript truthiness for a nullable string (empty string is falsy). -/
def truthyStr (x : Option String) : Option String :=
  match x with
  | none => none
  | some s => if s = "" then none else some s

/-- Dedup key: the first truthy identifier, else the serialized
attribute record (`JSON.stringify(a)`). -/
inductive DedupKey where
  | ident (s : String)
  | serialized (a : RawFeatureAttributes)
deriving DecidableEq

/-- Key of the point-identify dedup (line 168):
`a.building_id || a.objectid || a.id || a.label || JSON.stringify(a)`. -/
def pointKey (a : RawFeatureAttributes) : DedupKey :=
  match truthyStr a.building_id with
  | some s => .ident s
  | none =>
    match truthyStr a.objectid with
    | some s => .ident s
    | none =>
      match truthyStr a.id with
      | some s => .ident s
      | none =>
        match truthyStr a.label with
        | some s => .ident s
        | none => .serialized a

/-- `computeCentroid` (lines 185–210): a point geometry is its own
centroid; a polygon's centroid is the arithmetic mean of the first
ring's vertices; a multipoint's is its first point; otherwise none. -/
def computeCentroid : Option Geometry → Option (ℚ × ℚ)
  | none => none
  | some (.point x y) => some (x, y)
  | some (.rings rs) =>
    match rs with
    | [] => none
    | ring :: _ =>
      match ring with
      | [] => none
      | _ :: _ =>
        some ((ring.map Prod.fst).sum / ring.length, (ring.map Prod.snd).sum / ring.length)
  | some (.points ps) =>
    match ps with
    | [] => none
    | p :: _ => some p

/-- One deduplicated representative: attributes, `f = Number(flaeche)||0`,
`s = stromertrag ? Number(stromertrag) : 0`, and the squared centroid
distance to the query point (`none` models `Infinity`, i.e. no centroid).
The source compares `Math.sqrt(dx*dx+dy*dy)` against other distances and
against 20; since `√` is strictly monotone, the embedding carries the
squared distance and compares against squared thresholds (20² = 400),
which decides exactly the same comparisons. -/
structure Candidate where
  attrs : RawFeatureAttributes
  f : ℚ
  s : ℚ
  distSq : Option ℚ
deriving DecidableEq

/-- `u.dist < n.dist` with `none` as `Infinity` (squared distances). -/
def distLt : Option ℚ → Option ℚ → Bool
  | some a, some b => a < b
  | some _, none => true
  | none, _ => false

/-- `dist <= CHOOSE_NEARBY_METERS` (20), i.e. squared distance ≤ 400;
false for `Infinity`. -/
def distLe20 : Option ℚ → Bool
  | some a => a ≤ 400
  | none => false

/-- Build the candidate for one identify result at query point
`(easting, northing)` (lines 162, 169–170, 213–223). -/
def mkCandidate (easting northing : ℚ) (r : IdentifyResult) : Candidate :=
  { attrs := r.attributes
    f := (r.attributes.flaeche).getD 0
    s := (truthyNum r.attributes.stromertrag).getD 0
    distSq := (computeCentroid r.geometry).map
      (fun c => (c.1 - easting) ^ 2 + (c.2 - northing) ^ 2) }

/-- Insert-or-update of the insertion-ordered `byKey` map (lines
165–180): a later candidate replaces the kept one for its key only when
it has a strictly larger area, or an equal area and a strictly larger
production. -/
def upsertCandidate (k : DedupKey) (e : Candidate) :
    List (DedupKey × Candidate) → List (DedupKey × Candidate)
  | [] => [(k, e)]
  | (k', e') :: rest =>
    if k = k' then
      if e.f > e'.f ∨ (e.f = e'.f ∧ e.s > e'.s) then (k', e) :: rest
      else (k', e') :: rest
    else (k', e') :: upsertCandidate k e rest

/-- The deduplicated representatives, in key-first-seen order
(`Array.from(byKey.values())`, line 182). -/
def dedupCandidates (cands : List (Candidate)) : List Candidate :=
  (cands.foldl (fun m c => upsertCandidate (pointKey c.attrs) c m) []).map Prod.snd

/-- The sort comparator of line 226–229: strict "comes before" order,
larger area first, ties by larger production. -/
def candBefore (x y : Candidate) : Bool := x.f > y.f ∨ (x.f = y.f ∧ x.s > y.s)

/-- Stable insertion used to model `Array.prototype.sort` (stable since
ES2019) under the comparator above. -/
def insertCand (x : Candidate) : List Candidate → List Candidate
  | [] => [x]
  | y :: ys => if candBefore y x then y :: insertCand x ys else x :: y :: ys

/-- Stable sort by area (descending), ties by production (descending). -/
def sortCands (l : List Candidate) : List Candidate := l.foldr insertCand []

/-- The nearest-candidate scan of lines 232–233 over the sorted list:
keep the current champion unless the visited candidate is strictly
nearer. -/
def nearestScan (init : Candidate) (l : List Candidate) : Candidate :=
  l.foldl (fun n u => if distLt u.distSq n.distSq then u else n) init

/-- The two-tier selection of lines 226–238: sort by (area, production)
descending; pick the nearest representative if it is within 20 length
units, otherwise the head of the sorted list. -/
def chooseCandidate (uniq : List Candidate) : Option Candidate :=
  match sortCands uniq with
  | [] => none
  | h :: t =>
    let nearest := nearestScan h (h :: t)
    some (if distLe20 nearest.distSq then nearest else h)

/-- `getSolarData` (lines 118–304) given the identify response: fails
(null) on a non-success HTTP status and on an empty result list;
otherwise deduplicates, ranks, selects and normalizes. -/
def getSolarData (easting northing : ℚ) (resp : HttpResponse) : Option SolarRoofData :=
  if resp.ok = false then none
  else if resp.results.isEmpty then none
  else
    let uniq := dedupCandidates (resp.results.map (mkCandidate easting northing))
    let attrs :=
      match chooseCandidate uniq with
      | some c => c.attrs
      | none => ((resp.results.head?).map (·.attributes)).getD {}
    some (normalizeAttrs attrs)

/-- The strict comparator is asymmetric. -/
theorem candBefore_asymm {x y : Candidate} (h : candBefore x y = true) :
    candBefore y x = false := by
  simp only [candBefore, decide_eq_true_eq] at h
  simp only [candBefore, decide_eq_false_iff_not, not_or, not_and, not_lt]
  rcases h with h | ⟨hf, hs⟩
  · exact ⟨le_of_lt h, fun he => absurd he (by linarith)⟩
  · exact ⟨le_of_eq hf.symm, fun _ => le_of_lt hs⟩

/-- Non-precedence is transitive (the comparator is a strict weak
order on (area, production)). -/
theorem candBefore_false_trans {x y z : Candidate}
    (h1 : candBefore x y = false) (h2 : candBefore y z = false) :
    candBefore x z = false := by
  simp only [candBefore, decide_eq_false_iff_not, not_or, not_and, not_lt] at *
  obtain ⟨h1f, h1s⟩ := h1
  obtain ⟨h2f, h2s⟩ := h2
  refine ⟨le_trans h1f h2f, fun he => ?_⟩
  have hxy : x.f = y.f := le_antisymm h1f (he ▸ h2f)
  have hyz : y.f = z.f := hxy ▸ he
  exact le_trans (h1s hxy) (h2s hyz)

/-- `distLt` is irreflexive. -/
theorem distLt_irrefl (d : Option ℚ) : distLt d d = false := by
  cases d <;> simp [distLt]

/-- Strict nearer-than is transitive. -/
theorem distLt_trans {a b c : Option ℚ}
    (h1 : distLt a b = true) (h2 : distLt b c = true) : distLt a c = true := by
  cases a <;> cases b <;> cases c <;> simp [distLt] at * <;> linarith

/-- Non-nearer-than is transitive. -/
theorem distLt_false_trans {a b c : Option ℚ}
    (h1 : distLt a b = false) (h2 : distLt b c = false) : distLt a c = false := by
  cases a <;> cases b <;> cases c <;> simp [distLt] at * <;> linarith

/-- If `u` is within the 20-unit threshold and `n` is not strictly
farther than `u`, then `n` is within the threshold too. -/
theorem distLe20_of_not_lt {u n : Option ℚ}
    (h : distLt u n = false) (hu : distLe20 u = true) : distLe20 n = true := by
  cases u <;> cases n <;> simp [distLt, distLe20] at * <;> linarith

/-- Specification of the nearest-candidate scan: the result is the
initial champion or a visited candidate, the initial champion is not
strictly nearer than the result, and no visited candidate is strictly
nearer than the result. -/
theorem nearestScan_spec (l : List Candidate) :
    ∀ init : Candidate,
      (nearestScan init l = init ∨ nearestScan init l ∈ l) ∧
      distLt init.distSq (nearestScan init l).distSq = false ∧
      ∀ u ∈ l, distLt u.distSq (nearestScan init l).distSq = false := by
  induction l with
  | nil =>
    intro init
    refine ⟨Or.inl rfl, ?_, by simp⟩
    simp [nearestScan, distLt_irrefl]
  | cons u l ih =>
    intro init
    have hstep : nearestScan init (u :: l) =
        nearestScan (if distLt u.distSq init.distSq then u else init) l := rfl
    by_cases hd : distLt u.distSq init.distSq = true
    · rw [hstep, if_pos hd]
      obtain ⟨hmem, hinit, hall⟩ := ih u
      refine ⟨?_, ?_, ?_⟩
      · rcases hmem with h | h
        · exact Or.inr (by rw [h]; exact List.mem_cons_self u l)
        · exact Or.inr (List.mem_cons_of_mem u h)
      · by_contra hcon
        have hlt : distLt init.distSq (nearestScan u l).distSq = true :=
          Bool.not_eq_false _ |>.mp hcon
        have : distLt u.distSq (nearestScan u l).distSq = true := distLt_trans hd hlt
        rw [this] at hinit
        exact Bool.noConfusion hinit
      · intro v hv
        rcases List.mem_cons.mp hv with rfl | hv'
        · exact hinit
        · exact hall v hv'
    · have hd' : distLt u.distSq init.distSq = false := by
        exact Bool.not_eq_true _ |>.mp hd
      rw [hstep, if_neg (by simp [hd'])]
      obtain ⟨hmem, hinit, hall⟩ := ih init
      refine ⟨?_, hinit, ?_⟩
      · rcases hmem with h | h
        · exact Or.inl h
        · exact Or.inr (List.mem_cons_of_mem u h)
      · intro v hv
        rcases List.mem_cons.mp hv with rfl | hv'
        · exact distLt_false_trans hd' hinit
        · exact hall v hv'

/-- Stable insertion permutes. -/
theorem insertCand_perm (x : Candidate) (l : List Candidate) :
    List.Perm (insertCand x l) (x :: l) := by
  induction l with
  | nil => exact List.Perm.refl _
  | cons y ys ih =>
    unfold insertCand
    split
    · exact ((ih.cons y).trans (List.Perm.swap x y ys))
    · exact List.Perm.refl _

/-- The sort permutes its input. -/
theorem sortCands_perm (l : List Candidate) : List.Perm (sortCands l) l := by
  induction l with
  | nil => exact List.Perm.refl _
  | cons x xs ih =>
    have : sortCands (x :: xs) = insertCand x (sortCands xs) := rfl
    rw [this]
    exact (insertCand_perm x (sortCands xs)).trans (ih.cons x)

/-- Sortedness invariant: no later element strictly precedes an earlier
one. -/
def SortedOK (l : List Candidate) : Prop :=
  List.Pairwise (fun a b => candBefore b a = false) l

/-- Stable insertion preserves sortedness. -/
theorem insertCand_sortedOK {x : Candidate} {l : List Candidate}
    (h : SortedOK l) : SortedOK (insertCand x l) := by
  induction l with
  | nil => simp [insertCand, SortedOK]
  | cons y ys ih =>
    obtain ⟨hy, hys⟩ := List.pairwise_cons.mp h
    unfold insertCand
    by_cases hc : candBefore y x = true
    · rw [if_pos hc]
      refine List.pairwise_cons.mpr ⟨?_, ih hys⟩
      intro u hu
      rcases List.mem_cons.mp ((insertCand_perm x ys).mem_iff.mp hu) with rfl | hu'
      · exact candBefore_asymm hc
      · exact hy u hu'
    · have hc' : candBefore y x = false := Bool.not_eq_true _ |>.mp hc
      rw [if_neg (by simp [hc'])]
      refine List.pairwise_cons.mpr ⟨?_, h⟩
      intro u hu
      rcases List.mem_cons.mp hu with rfl | hu'
      · exact hc'
      · exact candBefore_false_trans (hy u hu') hc'

/-- The sort's output is sorted. -/
theorem sortCands_sortedOK (l : List Candidate) : SortedOK (sortCands l) := by
  induction l with
  | nil => simp [sortCands, SortedOK]
  | cons x xs ih => exact insertCand_sortedOK ih

/-- Candidate A of the spec's selection example: area 50, production 0,
centroid distance 5 (squared distance 25). -/
def candA : Candidate := { attrs := {}, f := 50, s := 0, distSq := some 25 }

/-- Candidate B of the spec's selection example: area 80, production 0,
centroid distance 30 (squared distance 900). -/
def candB : Candidate :=
  { attrs := { label := some "B" }, f := 80, s := 0, distSq := some 900 }

/-- C7: among deduplicated representatives, the selected candidate is one
of them; if some representative is within 20 length units, the selected
one is within 20 units and no representative is strictly nearer
(it is the nearest); otherwise the selected one has the largest area,
ties broken by larger production.  In particular, with A (area 50,
distance 5) and B (area 80, distance 30), A is selected. -/
theorem candidate_selection_rule (uniq : List Candidate) (c : Candidate)
    (hc : chooseCandidate uniq = some c) :
    c ∈ uniq ∧
      ((∃ u ∈ uniq, distLe20 u.distSq = true) →
        distLe20 c.distSq = true ∧ ∀ u ∈ uniq, distLt u.distSq c.distSq = false) ∧
      ((∀ u ∈ uniq, distLe20 u.distSq = false) →
        ∀ u ∈ uniq, u.f < c.f ∨ (u.f = c.f ∧ u.s ≤ c.s)) ∧
      chooseCandidate [candA, candB] = some candA := by
  have hAB : chooseCandidate [candA, candB] = some candA := by
    norm_num [chooseCandidate, sortCands, insertCand, candBefore, nearestScan,
      distLt, distLe20, candA, candB]
  rcases hs : sortCands uniq with - | ⟨h, t⟩
  · rw [chooseCandidate, hs] at hc
    exact absurd hc (by simp)
  · rw [chooseCandidate, hs] at hc
    have hcr : some (if distLe20 (nearestScan h (h :: t)).distSq = true
        then nearestScan h (h :: t) else h) = some c := hc
    obtain ⟨hmem, hinit, hall⟩ := nearestScan_spec (h :: t) h
    have hperm := sortCands_perm uniq
    have toUniq : ∀ u, u ∈ h :: t → u ∈ uniq := by
      intro u hu
      exact hperm.mem_iff.mp (by rw [hs]; exact hu)
    have toSorted : ∀ u, u ∈ uniq → u ∈ h :: t := by
      intro u hu
      rw [← hs]
      exact hperm.mem_iff.mpr hu
    have hnmem : nearestScan h (h :: t) ∈ uniq := by
      rcases hmem with he | he
      · rw [he]; exact toUniq h (List.mem_cons_self h t)
      · exact toUniq _ he
    have hhd : ∀ u ∈ t, candBefore u h = false := by
      have := sortCands_sortedOK uniq
      rw [SortedOK, hs] at this
      exact (List.pairwise_cons.mp this).1
    by_cases hd20 : distLe20 (nearestScan h (h :: t)).distSq = true
    · have hceq : c = nearestScan h (h :: t) := by
        simp [hd20] at hcr
        exact hcr.symm
      subst hceq
      refine ⟨hnmem, fun _ => ⟨hd20, ?_⟩, fun habs => ?_, hAB⟩
      · intro u hu
        exact hall u (toSorted u hu)
      · exact absurd hd20 (by simp [habs _ hnmem])
    · have hd20' : distLe20 (nearestScan h (h :: t)).distSq = false :=
        Bool.not_eq_true _ |>.mp hd20
      have hceq : c = h := by
        simp [hd20'] at hcr
        exact hcr.symm
      subst hceq
      refine ⟨toUniq c (List.mem_cons_self c t), fun hex => ?_, fun _ => ?_, hAB⟩
      · obtain ⟨u, hu, hule⟩ := hex
        have : distLe20 (nearestScan c (c :: t)).distSq = true :=
          distLe20_of_not_lt (hall u (toSorted u hu)) hule
        exact absurd this (by simp [hd20'])
      · intro u hu
        rcases List.mem_cons.mp (toSorted u hu) with rfl | hut
        · exact Or.inr ⟨rfl, le_refl _⟩
        · have hcb := hhd u hut
          simp only [candBefore, decide_eq_false_iff_not, not_or, not_and, not_lt] at hcb
          obtain ⟨hf, hsle⟩ := hcb
          rcases lt_or_eq_of_le hf with hlt | heq
          · exact Or.inl hlt
          · exact Or.inr ⟨heq, hsle heq⟩

/-- C7 witness: the selection rule applied to the concrete pair
(A: area 50, distance 5; B: area 80, distance 30); the nearby rule fires
and selects A. -/
theorem candidate_selection_rule_witness :
    candA ∈ [candA, candB] ∧
      ((∃ u ∈ [candA, candB], distLe20 u.distSq = true) →
        distLe20 candA.distSq = true ∧
          ∀ u ∈ [candA, candB], distLt u.distSq candA.distSq = false) ∧
      ((∀ u ∈ [candA, candB], distLe20 u.distSq = false) →
        ∀ u ∈ [candA, candB], u.f < candA.f ∨ (u.f = candA.f ∧ u.s ≤ candA.s)) ∧
      chooseCandidate [candA, candB] = some candA :=
  candidate_selection_rule [candA, candB] candA
    (by norm_num [chooseCandidate, sortCands, insertCand, candBefore, nearestScan,
      distLt, distLe20, candA, candB])

/-- C3 counterexample: a non-success HTTP response makes `getSolarData`
return the plain empty outcome `none` — bitwise the same outcome as the
successful zero-result response — rather than raising a `LookupFailed`
error, refuting the claim's second half at a concrete input. -/
theorem getSolarData_nonok_returns_none :
    getSolarData 2537000 1152000
        { ok := false, results := [{ attributes := {}, geometry := none }] } = none ∧
      getSolarData 2537000 1152000 { ok := true, results := [] } = none := by
  constructor <;> rfl

/-- C3 (amended): the per-point lookup returns the empty result (null)
— not an error — both when the service responds successfully with zero
results and when the HTTP response has a non-success status; no error is
raised in either case. -/
theorem getSolarData_failure_modes (easting northing : ℚ) (resp : HttpResponse) :
    (resp.ok = false → getSolarData easting northing resp = none) ∧
      (resp.results = [] → getSolarData easting northing resp = none) := by
  constructor
  · intro h
    unfold getSolarData
    rw [h]
    simp
  · intro h
    by_cases hok : resp.ok = false <;> simp [getSolarData, h, hok]

/-- C3 witness: the amended behavior at a concrete failed response and a
concrete empty success. -/
theorem getSolarData_failure_modes_witness :
    getSolarData 2537000 1152000 { ok := false, results := [] } = none ∧
      getSolarData 2537000 1152000 { ok := true, results := [] } = none :=
  ⟨(getSolarData_failure_modes 2537000 1152000 { ok := false, results := [] }).1 rfl,
    (getSolarData_failure_modes 2537000 1152000 { ok := true, results := [] }).2 rfl⟩

/-! Polygon sampling (`samplePolygonRadiation`, lines 473–623), the
point-in-polygon predicate (lines 452–466), the polygon identify path
(`getSolarDataForPolygon`, lines 311–415) and the combined entry point
(`getSolarDataForPolygonWithSampling`, lines 419–449). -/

/-- A WGS84 point `{lat, lng}`. -/
structure GeoPoint where
  lat : ℚ
  lng : ℚ
deriving DecidableEq, Repr

/-- The edge list walked by the `for (i, j = i-1 mod n)` loop of
`pointInPolygon`: vertex `i` paired with its predecessor (the last
vertex for `i = 0`). -/
def polygonEdges (vs : List GeoPoint) : List (GeoPoint × GeoPoint) :=
  match vs.getLast? with
  | none => []
  | some last => vs.zip (last :: vs.dropLast)

/-- `pointInPolygon` exactly as written at lines 452–466: the crossing
test is `yi > y !== yj > y && x < ((xj - xi) * (y - yi)) / (yj - yi + xi)`
— note the source's parenthesisation places `+ xi` inside the
denominator.  Division by zero yields 0 in `ℚ` (JS would yield ±Infinity
or NaN); every input evaluated in this file has a nonzero denominator, so
the two conventions agree on them. -/
def pointInPolygon (point : GeoPoint) (vs : List GeoPoint) : Bool :=
  let x := point.lng
  let y := point.lat
  (polygonEdges vs).foldl
    (fun inside e =>
      let xi := e.1.lng
      let yi := e.1.lat
      let xj := e.2.lng
      let yj := e.2.lat
      if (¬ ((yi > y) ↔ (yj > y))) ∧ x < ((xj - xi) * (y - yi)) / (yj - yi + xi)
      then !inside else inside)
    false

/-- Modelled from the spec: the standard ray-casting crossing test
`yi > y !== yj > y && x < (xj - xi) * (y - yi) / (yj - yi) + xi`
(horizontal ray, odd crossing count = inside), for comparison with the
source's `pointInPolygon`. -/
def pointInPolygonSpec (point : GeoPoint) (vs : List GeoPoint) : Bool :=
  let x := point.lng
  let y := point.lat
  (polygonEdges vs).foldl
    (fun inside e =>
      let xi := e.1.lng
      let yi := e.1.lat
      let xj := e.2.lng
      let yj := e.2.lat
      if (¬ ((yi > y) ↔ (yj > y))) ∧ x < (xj - xi) * (y - yi) / (yj - yi) + xi
      then !inside else inside)
    false

/-- The axis-aligned square with corners (46.519, 6.631) and
(46.5205, 6.633) (the polygon of `src/scripts/test_polygon_sampling.js`). -/
def lausanneSquare : List GeoPoint :=
  [⟨46.5205, 6.631⟩, ⟨46.5205, 6.633⟩, ⟨46.519, 6.633⟩, ⟨46.519, 6.631⟩]

/-- The interior probe point (46.5198, 6.632). -/
def insidePoint : GeoPoint := ⟨46.5198, 6.632⟩

/-- The exterior probe point (46.5300, 6.632). -/
def outsidePoint : GeoPoint := ⟨46.53, 6.632⟩

/-- Cache key entry type: the polygon's vertices rounded to 6 decimal
places, in order (the in-memory model of the `JSON.stringify`
fingerprint; two polygons get the same key iff their rounded vertex
lists agree). -/
def round6 (q : ℚ) : ℚ := (jsRound (q * 1000000) : ℚ) / 1000000

/-- The cache fingerprint of a polygon (line 482). -/
def polygonKey (poly : List GeoPoint) : List (ℚ × ℚ) :=
  poly.map (fun p => (round6 p.lat, round6 p.lng))

/-- Association-list get, first match wins (JS `Map.get`). -/
def cacheGet : List (List (ℚ × ℚ) × ℤ) → List (ℚ × ℚ) → Option ℤ
  | [], _ => none
  | (k', v) :: rest, k => if k = k' then some v else cacheGet rest k

/-- Association-list set: update in place, else append (JS `Map.set`). -/
def cacheSet : List (List (ℚ × ℚ) × ℤ) → List (ℚ × ℚ) → ℤ → List (List (ℚ × ℚ) × ℤ)
  | [], k, v => [(k, v)]
  | (k', v') :: rest, k, v =>
    if k = k' then (k', v) :: rest else (k', v') :: cacheSet rest k v

/-- The three stores the module writes radiation results to: the
in-memory `_polygonSampleCache`, its `localStorage` serialization, and
the cross-realm `globalThis.__polygonSampleCache` mirror. -/
structure CacheState where
  mem : List (List (ℚ × ℚ) × ℤ)
  store : List (List (ℚ × ℚ) × ℤ)
  global : List (List (ℚ × ℚ) × ℤ)
deriving DecidableEq, Repr

/-- The empty cache state (fresh module load, empty localStorage). -/
def emptyCache : CacheState := { mem := [], store := [], global := [] }

/-- `clearPolygonSampleCache` (lines 59–66): clears the in-memory map
and removes the `localStorage` entry; the `globalThis` mirror is not
touched. -/
def clearPolygonSampleCache (st : CacheState) : CacheState :=
  { mem := [], store := [], global := st.global }

/-- Store a computed result in all three stores (lines 548–556 and
611–620): set in the in-memory map, serialize that map to localStorage,
and set in the `globalThis` mirror. -/
def storeResult (st : CacheState) (k : List (ℚ × ℚ)) (v : ℤ) : CacheState :=
  { mem := cacheSet st.mem k v
    store := cacheSet st.mem k v
    global := cacheSet st.global k v }

/-- The adaptive grid resolution (lines 516–519). -/
def adaptiveGridOf (gridSize : ℕ) (approxAreaDeg : ℚ) : ℕ :=
  let g1 := if approxAreaDeg > 0.0005 then max gridSize 4 else gridSize
  let g2 := if approxAreaDeg > 0.002 then max g1 6 else g1
  if approxAreaDeg > 0.01 then max g2 8 else g2

/-- The interior grid of candidate points (lines 521–532), before the
point-in-polygon filter: `lat = minLat + latStep*i`,
`lng = minLng + lngStep*j` for `i, j ∈ 1..g` with step `range/(g+1)`. -/
def gridPoints (minLat maxLat minLng maxLng : ℚ) (g : ℕ) : List GeoPoint :=
  let latStep := (maxLat - minLat) / (g + 1)
  let lngStep := (maxLng - minLng) / (g + 1)
  ((List.range g).map (· + 1)).flatMap (fun (i : ℕ) =>
    ((List.range g).map (· + 1)).map (fun (j : ℕ) =>
      ⟨minLat + latStep * (i : ℚ), minLng + lngStep * (j : ℚ)⟩))

/-- The vertex-arithmetic-mean centroid (lines 538–541). -/
def polygonCentroid (poly : List GeoPoint) : GeoPoint :=
  let n : ℚ := poly.length
  poly.foldl (fun acc p => ⟨acc.lat + p.lat / n, acc.lng + p.lng / n⟩) ⟨0, 0⟩

/-- `samples.reduce((a, b) => a + b, 0)`. -/
def listSum (l : List ℤ) : ℤ := l.foldl (· + ·) 0

/-- The mean of the collected samples (line 585). -/
def sampleMean (l : List ℤ) : ℚ := (listSum l : ℚ) / l.length

/-- The population variance of the collected samples (line 586). -/
def sampleVariance (l : List ℤ) : ℚ :=
  (l.foldl (fun a b => a + ((b : ℚ) - sampleMean l) ^ 2) 0) / l.length

/-- The early-stop stability check of lines 584–593: at least 4 samples
and `stddev / mean < 0.05` with `mean > 0`.  Since both sides are
non-negative when `mean > 0`, `√variance / mean < 0.05` holds iff
`400 * variance < mean²`, which is what the embedding (working in `ℚ`,
without square roots) tests; the two are equivalent over the reals. -/
def stopCheck (samples : List ℤ) : Bool :=
  4 ≤ samples.length ∧ 0 < sampleMean samples ∧
    400 * sampleVariance samples < sampleMean samples ^ 2

/-- Effect of one processed point on the shared sample list (line 576):
append the radiation when a roof was found with a truthy positive value
(`roof && roof.radiation && roof.radiation > 0`). -/
def pushSample (samples : List ℤ) (o : Option ℤ) : List ℤ :=
  match o with
  | some r => if 0 < r then samples ++ [r] else samples
  | none => samples

/-- One worker's loop (lines 570–596) over its assigned points: before
each point it checks the shared stop flag and terminates if set;
otherwise it consults the per-point pipeline (the oracle abstracts
`convertWGS84toLV95` + `getSolarData`, with a thrown/failed lookup as
`none`), appends the radiation to the shared sample list when positive,
and then runs the stability check, setting the stop flag when it fires.
Returns the final sample list, the stop flag, and the number of points
processed. -/
def runWorker (oracle : GeoPoint → Option ℤ) :
    List GeoPoint → List ℤ → Bool → List ℤ × Bool × ℕ
  | [], samples, stop => (samples, stop, 0)
  | pt :: rest, samples, stop =>
    if stop then (samples, stop, 0)
    else
      let samples' := pushSample samples (oracle pt)
      let stop' := stopCheck samples'
      let result := runWorker oracle rest samples' stop'
      (result.1, result.2.1, result.2.2 + 1)

/-- Round-robin partition of the candidate points into `k` concurrency
groups (lines 599–602). -/
def roundRobin (k : ℕ) (l : List GeoPoint) : List (List GeoPoint) :=
  (List.range k).map (fun j => (l.enum.filter (fun e => e.1 % k == j)).map Prod.snd)

/-- Run the worker pool.  The source runs the workers concurrently over
the shared sample list and stop flag; the embedding executes them under
one admissible schedule (group after group, each worker honouring the
flag left by earlier ones), which determines the function-level result.
The point counter sums the points processed by all workers. -/
def runGroups (oracle : GeoPoint → Option ℤ) :
    List (List GeoPoint) → List ℤ → Bool → List ℤ × Bool × ℕ
  | [], samples, stop => (samples, stop, 0)
  | g :: gs, samples, stop =>
    let r1 := runWorker oracle g samples stop
    let r2 := runGroups oracle gs r1.1 r1.2.1
    (r2.1, r2.2.1, r1.2.2 + r2.2.2)

/-- `samplePolygonRadiation` (lines 473–623).  The oracle stands for the
per-point network pipeline; the returned `ℕ` counts the points actually
queried (0 means no network activity).  Rejects polygons with fewer than
3 vertices; consults the in-memory cache, then the `globalThis` mirror;
otherwise samples the interior grid (or the centroid if no grid point
passes the point-in-polygon test) and stores a successful result in all
three stores. -/
def samplePolygonRadiation (oracle : GeoPoint → Option ℤ) (st : CacheState)
    (poly : List GeoPoint) (gridSize concurrency : ℕ) : Option ℤ × CacheState × ℕ :=
  if poly.length < 3 then (none, st, 0)
  else
    let key := polygonKey poly
    match cacheGet st.mem key with
    | some v => (if v = 0 then none else some v, st, 0)
    | none =>
      match cacheGet st.global key with
      | some v => (some v, { st with mem := cacheSet st.mem key v }, 0)
      | none =>
        match poly with
        | [] => (none, st, 0)
        | p0 :: _ =>
          let minLat := poly.foldl (fun m p => min m p.lat) p0.lat
          let maxLat := poly.foldl (fun m p => max m p.lat) p0.lat
          let minLng := poly.foldl (fun m p => min m p.lng) p0.lng
          let maxLng := poly.foldl (fun m p => max m p.lng) p0.lng
          let adaptiveGrid := adaptiveGridOf gridSize ((maxLat - minLat) * (maxLng - minLng))
          let candidatePts :=
            (gridPoints minLat maxLat minLng maxLng adaptiveGrid).filter
              (fun pt => pointInPolygon pt poly)
          if candidatePts.isEmpty then
            match oracle (polygonCentroid poly) with
            | some r =>
              if 0 < r then (some r, storeResult st key r, 1)
              else (none, st, 1)
            | none => (none, st, 1)
          else
            let run := runGroups oracle (roundRobin concurrency candidatePts) [] false
            if run.1.isEmpty then (none, st, run.2.2)
            else
              let result := jsRound ((listSum run.1 : ℚ) / run.1.length)
              (some result, storeResult st key result, run.2.2)

/-- Key of the polygon-identify dedup (line 358):
`attrs.building_id || attrs.label || attrs.id || attrs.objectid ||
JSON.stringify(attrs)` — note the different priority order from the
point path. -/
def polyIdentKey (a : RawFeatureAttributes) : DedupKey :=
  match truthyStr a.building_id with
  | some s => .ident s
  | none =>
    match truthyStr a.label with
    | some s => .ident s
    | none =>
      match truthyStr a.id with
      | some s => .ident s
      | none =>
        match truthyStr a.objectid with
        | some s => .ident s
        | none => .serialized a

/-- Aggregation state of the polygon identify loop (lines 347–373). -/
structure PolyAgg where
  seen : List DedupKey
  totF : ℚ
  totS : ℚ
  cntS : ℕ
  totG : ℚ
  cntG : ℕ

/-- One step of the polygon identify loop: skip already-seen keys,
otherwise add the area to the total and the truthy production/general
radiation figures to their totals and counts. -/
def polyAggStep (acc : PolyAgg) (r : IdentifyResult) : PolyAgg :=
  let attrs := r.attributes
  let key := polyIdentKey attrs
  if key ∈ acc.seen then acc
  else
    let s := truthyNum attrs.stromertrag
    let g := truthyNum attrs.gstrahlung
    { seen := acc.seen ++ [key]
      totF := acc.totF + (attrs.flaeche).getD 0
      totS := acc.totS + s.getD 0
      cntS := acc.cntS + (if s.isSome then 1 else 0)
      totG := acc.totG + (if g.isSome then g.getD 0 else 0)
      cntG := acc.cntG + (if g.isSome then 1 else 0) }

/-- `getSolarDataForPolygon` (lines 311–415): rejects polygons with
fewer than 3 vertices before any network activity; otherwise converts
each vertex (one call per vertex) and issues one polygon identify (the
`ℕ` result counts these calls), then aggregates the deduplicated
results.  The `raw` field carries the result attribute records
(`data.results`). -/
def getSolarDataForPolygon (poly : List GeoPoint) (resp : HttpResponse) :
    Option SolarRoofData × ℕ :=
  if poly.length < 3 then (none, 0)
  else
    let calls := poly.length + 1
    if resp.ok = false then (none, calls)
    else if resp.results.isEmpty then (none, calls)
    else
      let agg := resp.results.foldl polyAggStep ⟨[], 0, 0, 0, 0, 0⟩
      let a1 : Option ℚ :=
        if 0 < agg.totS ∧ 0 < agg.totF then
          some (agg.totS / (agg.totF * COMBINED_FACTOR))
        else none
      let a2 : Option ℚ :=
        if jsFalsy a1 ∧ 0 < agg.cntG then
          match firstInWindow [agg.totG / agg.cntG, agg.totG / agg.cntG / 1000,
              agg.totG / agg.cntG / 3.6] with
          | some c => some c
          | none => a1
        else a1
      let a3 : Option ℚ :=
        if jsFalsy a2 then some (if 0 < agg.cntG then agg.totG / agg.cntG else 0)
        else a2
      let avgStrom : Option ℚ :=
        if 0 < agg.cntS then some (agg.totS / agg.cntS) else none
      let firstAttrs := ((resp.results.head?).map (·.attributes)).getD {}
      (some { radiation := jsRound (jsOrQ a3 0)
              area := (jsRound agg.totF : ℚ)
              power := 0
              suitability := (firstAttrs.eignung).getD "unknown"
              stretrag := truthyNum avgStrom
              raw := RawPayload.results (resp.results.map (·.attributes)) }, calls)

/-- `getSolarDataForPolygonWithSampling` (lines 419–449), parametrized
by the outcomes of its two callees: `base` is the value of
`getSolarDataForPolygon`, and `sampled` is the outcome of the
`samplePolygonRadiation` call inside the `try` (with `Except.error`
modelling a thrown exception, caught at line 444).  When sampling
yields a truthy positive number it replaces the base record's
radiation, or fabricates a minimal record if the base is null;
otherwise the base is returned unchanged. -/
def getSolarDataForPolygonWithSampling (base : Option SolarRoofData)
    (sampled : Except Unit (Option ℤ)) : Option SolarRoofData :=
  match sampled with
  | .error _ => base
  | .ok none => base
  | .ok (some v) =>
    if 0 < v then
      match base with
      | some b => some { b with radiation := v }
      | none =>
        some { radiation := v, area := 0, power := 0,
               suitability := "unknown", stretrag := none, raw := RawPayload.empty }
    else base

/-- The cache fingerprint of the Lausanne square: its vertices rounded
to 6 decimals (they are already exact at that precision). -/
def lausanneKey : List (ℚ × ℚ) :=
  [(46.5205, 6.631), (46.5205, 6.633), (46.519, 6.633), (46.519, 6.631)]

/-- Cache state after one successful sampling of the Lausanne square
with result 1000: all three stores hold the entry. -/
def lausanneCache : CacheState :=
  { mem := [(lausanneKey, 1000)], store := [(lausanneKey, 1000)],
    global := [(lausanneKey, 1000)] }

/-- C1: evaluation of the source's `pointInPolygon` at the claim's
inputs.  Because the source writes the crossing test with `+ xi` inside
the denominator (`x < ((xj - xi) * (y - yi)) / (yj - yi + xi)` instead
of the standard `x < (xj - xi) * (y - yi) / (yj - yi) + xi`), every
vertical edge of an axis-aligned rectangle contributes a zero
right-hand side and no crossing is ever counted: the interior point
(46.5198, 6.632) is classified outside, contradicting the claim.  The
spec-modelled standard ray-casting test classifies the two points as
the claim states. -/
theorem pointInPolygon_misclassifies_square_interior :
    pointInPolygon insidePoint lausanneSquare = false ∧
      pointInPolygon outsidePoint lausanneSquare = false ∧
      pointInPolygonSpec insidePoint lausanneSquare = true ∧
      pointInPolygonSpec outsidePoint lausanneSquare = false := by
  refine ⟨?_, ?_, ?_, ?_⟩ <;>
    norm_num [pointInPolygon, pointInPolygonSpec, polygonEdges, lausanneSquare,
      insidePoint, outsidePoint]

/-- C2: a polygon with fewer than 3 vertices makes both
`samplePolygonRadiation` and `getSolarDataForPolygon` return the failure
outcome (null) immediately, with zero network calls and the cache state
untouched. -/
theorem degenerate_polygon_fails_fast (oracle : GeoPoint → Option ℤ)
    (st : CacheState) (poly : List GeoPoint) (resp : HttpResponse)
    (gridSize concurrency : ℕ) (h : poly.length < 3) :
    samplePolygonRadiation oracle st poly gridSize concurrency = (none, st, 0) ∧
      getSolarDataForPolygon poly resp = (none, 0) := by
  constructor
  · unfold samplePolygonRadiation
    rw [if_pos h]
  · unfold getSolarDataForPolygon
    rw [if_pos h]

/-- C2 witness: a two-vertex polygon fails fast on both paths. -/
theorem degenerate_polygon_fails_fast_witness :
    samplePolygonRadiation (fun _ => none) emptyCache [⟨0, 0⟩, ⟨1, 1⟩] 3 4 =
        (none, emptyCache, 0) ∧
      getSolarDataForPolygon [⟨0, 0⟩, ⟨1, 1⟩] { ok := true, results := [] } = (none, 0) :=
  degenerate_polygon_fails_fast (fun _ => none) emptyCache [⟨0, 0⟩, ⟨1, 1⟩]
    { ok := true, results := [] } 3 4 (by norm_num)

/-- C9: the concrete cache life cycle on the Lausanne square (code-bug
evaluation).  First call: computes (1 lookup via the centroid fallback),
returns 1000 and stores it in the in-memory map, localStorage and the
`globalThis` mirror.  Second call: returns the identical 1000 from the
in-memory cache with zero lookups (the round-trip half of the claim
holds).  After `clearPolygonSampleCache` — which empties the in-memory
map and localStorage but not the `globalThis` mirror — the next call
again returns the cached 1000 with zero lookups instead of recomputing,
contradicting the claim's clear-then-recompute half. -/
theorem cache_clear_leaves_global_mirror :
    samplePolygonRadiation (fun _ => some 1000) emptyCache lausanneSquare 3 4 =
        (some 1000, lausanneCache, 1) ∧
      samplePolygonRadiation (fun _ => some 1000) lausanneCache lausanneSquare 3 4 =
        (some 1000, lausanneCache, 0) ∧
      clearPolygonSampleCache lausanneCache =
        { mem := [], store := [], global := [(lausanneKey, 1000)] } ∧
      samplePolygonRadiation (fun _ => some 1000)
          (clearPolygonSampleCache lausanneCache) lausanneSquare 3 4 =
        (some 1000, { mem := [(lausanneKey, 1000)], store := [],
                      global := [(lausanneKey, 1000)] }, 0) := by
  refine ⟨?_, ?_, rfl, ?_⟩
  · norm_num [samplePolygonRadiation, emptyCache, lausanneSquare, lausanneCache,
      lausanneKey, polygonKey, round6, jsRound, cacheGet, cacheSet, storeResult,
      adaptiveGridOf, gridPoints, polygonCentroid, pointInPolygon, polygonEdges,
      List.filter, List.flatMap]
  · norm_num [samplePolygonRadiation, lausanneSquare, lausanneCache, lausanneKey,
      polygonKey, round6, jsRound, cacheGet]
  · norm_num [samplePolygonRadiation, clearPolygonSampleCache, lausanneSquare,
      lausanneCache, lausanneKey, polygonKey, round6, jsRound, cacheGet, cacheSet]

/-- C10: the frame property of `getSolarDataForPolygonWithSampling`: a
positive sampled value replaces only the `radiation` field of a non-null
base record (all other fields are carried over unchanged, as the record
update shows); a null, zero, negative or thrown sampling outcome leaves
the base result untouched; with a null base and a positive sample a
minimal record is fabricated. -/
theorem with_sampling_frame (b : SolarRoofData) (base : Option SolarRoofData) (v : ℤ) :
    (0 < v → getSolarDataForPolygonWithSampling (some b) (Except.ok (some v)) =
        some { b with radiation := v }) ∧
      (v ≤ 0 → getSolarDataForPolygonWithSampling base (Except.ok (some v)) = base) ∧
      getSolarDataForPolygonWithSampling base (Except.ok none) = base ∧
      getSolarDataForPolygonWithSampling base (Except.error ()) = base ∧
      (0 < v → getSolarDataForPolygonWithSampling none (Except.ok (some v)) =
        some { radiation := v, area := 0, power := 0, suitability := "unknown",
               stretrag := none, raw := RawPayload.empty }) := by
  refine ⟨fun hv => ?_, fun hv => ?_, rfl, rfl, fun hv => ?_⟩
  · simp [getSolarDataForPolygonWithSampling, hv]
  · simp [getSolarDataForPolygonWithSampling, not_lt.mpr hv]
  · simp [getSolarDataForPolygonWithSampling, hv]

/-- C10 witness: the frame property at a concrete base record and the
sampled values 5 (positive), -3 (non-positive), null and a thrown
sampling error. -/
theorem with_sampling_frame_witness :
    getSolarDataForPolygonWithSampling
        (some (normalizeAttrs edge1)) (Except.ok (some 5)) =
        some { normalizeAttrs edge1 with radiation := 5 } ∧
      getSolarDataForPolygonWithSampling (some (normalizeAttrs edge1))
        (Except.ok (some (-3))) = some (normalizeAttrs edge1) ∧
      getSolarDataForPolygonWithSampling (some (normalizeAttrs edge1))
        (Except.ok none) = some (normalizeAttrs edge1) ∧
      getSolarDataForPolygonWithSampling (some (normalizeAttrs edge1))
        (Except.error ()) = some (normalizeAttrs edge1) :=
  ⟨(with_sampling_frame (normalizeAttrs edge1) (some (normalizeAttrs edge1)) 5).1
      (by norm_num),
    (with_sampling_frame (normalizeAttrs edge1) (some (normalizeAttrs edge1)) (-3)).2.1
      (by norm_num),
    (with_sampling_frame (normalizeAttrs edge1) (some (normalizeAttrs edge1)) 0).2.2.1,
    (with_sampling_frame (normalizeAttrs edge1) (some (normalizeAttrs edge1)) 0).2.2.2.1⟩

/-- Shared state of the concurrent sampling phase (§ lines 565–604): the
per-worker queues of remaining points, the shared sample list, and the
shared `stopEarly` flag. -/
structure SampState where
  queues : List (List GeoPoint)
  samples : List ℤ
  stop : Bool

/-- Interleaved small-step semantics of the worker pool: any worker
with remaining points may act.  If the stop flag is clear it processes
its next point (appending a positive radiation to the shared list and
running the stability check, which sets the flag); if the flag is set
it terminates its loop without touching its points (`if (stopEarly)
break`, line 572). -/
inductive SampStep (oracle : GeoPoint → Option ℤ) : SampState → SampState → Prop
  | process (σ : SampState) (i : ℕ) (pt : GeoPoint) (rest : List GeoPoint)
      (hstop : σ.stop = false) (hq : σ.queues.get? i = some (pt :: rest)) :
      SampStep oracle σ
        ⟨σ.queues.set i rest, pushSample σ.samples (oracle pt),
          stopCheck (pushSample σ.samples (oracle pt))⟩
  | halt (σ : SampState) (i : ℕ) (q : List GeoPoint)
      (hstop : σ.stop = true) (hq : σ.queues.get? i = some q) :
      SampStep oracle σ ⟨σ.queues.set i [], σ.samples, σ.stop⟩

/-- Nine grid points standing in for an unvisited-remainder grid. -/
def stableStreamPts : List GeoPoint :=
  [⟨0, 0⟩, ⟨1, 0⟩, ⟨2, 0⟩, ⟨3, 0⟩, ⟨4, 0⟩, ⟨5, 0⟩, ⟨6, 0⟩, ⟨7, 0⟩, ⟨8, 0⟩]

/-- Oracle producing the synthetic sample stream 1000, 1010, 995, 1005
on the first four points (then 3000, which must never be reached). -/
def stableStreamOracle : GeoPoint → Option ℤ := fun p =>
  if p.lat = 0 then some 1000
  else if p.lat = 1 then some 1010
  else if p.lat = 2 then some 995
  else if p.lat = 3 then some 1005
  else some 3000

/-- C8: the early-stop protocol.  (1) Once the stop flag is set, every
step any worker can take leaves the sample list unchanged and the flag
set — no further point is processed.  (2) After any step whose
resulting sample list satisfies the stability check (≥ 4 samples,
coefficient of variation < 0.05), the stop flag is set.  (3) On the
synthetic stream [1000, 1010, 995, 1005] a worker stops after exactly
those 4 values — 4 points processed out of 9, sample list exactly the
four values, flag set — and (4) that list indeed passes the stability
check (its coefficient of variation ≈ 0.0056 < 0.05). -/
theorem early_stop_protocol :
    (∀ (oracle : GeoPoint → Option ℤ) (σ σ' : SampState),
        SampStep oracle σ σ' → σ.stop = true →
          σ'.samples = σ.samples ∧ σ'.stop = true) ∧
      (∀ (oracle : GeoPoint → Option ℤ) (σ σ' : SampState),
        SampStep oracle σ σ' → stopCheck σ'.samples = true → σ'.stop = true) ∧
      runWorker stableStreamOracle stableStreamPts [] false =
        ([1000, 1010, 995, 1005], true, 4) ∧
      stopCheck [1000, 1010, 995, 1005] = true := by
  refine ⟨?_, ?_, ?_, ?_⟩
  · intro oracle σ σ' hstep hstop
    cases hstep with
    | process i pt rest hs hq =>
      rw [hs] at hstop
      exact Bool.noConfusion hstop
    | halt i q hs hq => exact ⟨rfl, hs⟩
  · intro oracle σ σ' hstep hchk
    cases hstep with
    | process i pt rest hs hq => exact hchk
    | halt i q hs hq => exact hs
  · norm_num [runWorker, stableStreamPts, stableStreamOracle, pushSample, stopCheck,
      sampleMean, sampleVariance, listSum]
  · norm_num [stopCheck, sampleMean, sampleVariance, listSum]

/-- C8 witness: a concrete halt step — with the stop flag set and one
point still queued, the worker's step leaves the sample list unchanged
and the flag set. -/
theorem early_stop_protocol_witness :
    (⟨[[]], [7], true⟩ : SampState).samples =
        (⟨[[⟨0, 0⟩]], [7], true⟩ : SampState).samples ∧
      (⟨[[]], [7], true⟩ : SampState).stop = true :=
  early_stop_protocol.1 (fun _ => none) ⟨[[⟨0, 0⟩]], [7], true⟩ ⟨[[]], [7], true⟩
    (SampStep.halt _ 0 [⟨0, 0⟩] rfl rfl) rfl
